import Mathlib

/-!
Verification of the BHAROSA KYC backend against its specification.

The development shallowly embeds the relevant JavaScript source files:

* `backend/src/utils/hashUtils.js` — hashing and Merkle-root utilities,
  parameterized by the SHA-256 primitive `sha : String → String`
  (the `crypto` library call is external to the repository);
* `backend/src/controllers/kycController.js` — the submission guard,
  the AI-verification pipeline, credential issuance and blockchain
  registration, rendered as pure record-update functions plus a labelled
  transition system for the timer interleaving;
* `backend/src/middleware/validateKYC.js` — the submission validator;
* `backend/src/utils/ipfsClient.js` — the batched IPFS upload;
* `backend/src/utils/blockchainClient.js` — the payload actually handed
  to the ledger.
-/

namespace Bharosa

/-! ## hashUtils.js -/

/-- `hashDocumentNumber` from hashUtils.js: the preimage is the template
string documentType ":" documentNumber. -/
def hashDocumentNumber (sha : String → String) (documentNumber documentType : String) : String :=
  sha (documentType ++ ":" ++ documentNumber)

/-- `hashUserId` from hashUtils.js. -/
def hashUserId (sha : String → String) (userId : String) : String :=
  sha ("user:" ++ userId)

/-- One level of the Merkle pairing loop in `createMerkleRoot`
(hashUtils.js lines 89–94): adjacent hashes are paired, the pair
concatenation is hashed, and `hashes[i + 1] || left` duplicates the left
element when the index is out of range or the right element is the empty
string (JavaScript falsiness). -/
def pairLevel (sha : String → String) : List String → List String
  | [] => []
  | [l] => [sha (l ++ l)]
  | l :: r :: rest => sha (l ++ (if r = "" then l else r)) :: pairLevel sha rest

theorem pairLevel_length (sha : String → String) :
    ∀ l : List String, (pairLevel sha l).length = (l.length + 1) / 2
  | [] => rfl
  | [_] => by simp [pairLevel]
  | _ :: _ :: rest => by
    simp only [pairLevel, List.length_cons, pairLevel_length sha rest]
    omega

theorem pairLevel_length_lt (sha : String → String) (l : List String)
    (h : 2 ≤ l.length) : (pairLevel sha l).length < l.length := by
  rw [pairLevel_length]
  omega

/-- `createMerkleRoot` from hashUtils.js: an empty (or missing, see
`createMerkleRootJS`) list yields the hash of the sentinel string
"empty"; a singleton is returned unchanged; otherwise the pairing level
is computed and the function recurses on the strictly shorter level. -/
def createMerkleRoot (sha : String → String) : List String → String
  | [] => sha "empty"
  | [h] => h
  | h1 :: h2 :: rest => createMerkleRoot sha (pairLevel sha (h1 :: h2 :: rest))
termination_by l => l.length
decreasing_by
  simp_wf
  apply pairLevel_length_lt
  simp only [List.length_cons]
  omega

/-- The JavaScript entry point also accepts a missing (`null` or
`undefined`) argument: `if (!hashes || hashes.length === 0)`. -/
def createMerkleRootJS (sha : String → String) : Option (List String) → String
  | none => sha "empty"
  | some hashes => createMerkleRoot sha hashes

theorem createMerkleRoot_nil (sha : String → String) :
    createMerkleRoot sha [] = sha "empty" := by
  simp [createMerkleRoot]

theorem createMerkleRoot_singleton (sha : String → String) (h : String) :
    createMerkleRoot sha [h] = h := by
  simp [createMerkleRoot]

theorem createMerkleRoot_cons_cons (sha : String → String)
    (h1 h2 : String) (rest : List String) :
    createMerkleRoot sha (h1 :: h2 :: rest)
      = createMerkleRoot sha (pairLevel sha (h1 :: h2 :: rest)) := by
  rw [createMerkleRoot]

/-- A concrete stand-in for the external SHA-256 primitive, used to
instantiate hypotheses of the parameterized theorems at closed inputs. -/
def shaTest (s : String) : String :=
  "H" ++ s

/-- Claim C6: createMerkleRoot returns the hash of the fixed sentinel
"empty" for an empty or missing input list, returns the single element
unchanged for a one-element list, pairs adjacent hashes for longer
lists (duplicating the last hash at an odd level) so that
createMerkleRoot [h1, h2, h3] = sha (sha (h1 ++ h2) ++ sha (h3 ++ h3)),
and recomputing on the same input reproduces the same root.  The two
nonemptiness side conditions come from the JavaScript falsiness check
hashes[i + 1] || left, which treats an empty-string hash as missing;
actual hex digests are never empty. -/
theorem C6_createMerkleRoot_edge_cases (sha : String → String) (h1 h2 h3 : String)
    (hh2 : h2 ≠ "") (hsh : sha (h3 ++ h3) ≠ "") :
    createMerkleRootJS sha none = sha "empty" ∧
    createMerkleRoot sha [] = sha "empty" ∧
    createMerkleRoot sha [h1] = h1 ∧
    createMerkleRoot sha [h1, h2, h3] = sha (sha (h1 ++ h2) ++ sha (h3 ++ h3)) ∧
    createMerkleRoot sha [h1, h2, h3] = createMerkleRoot sha [h1, h2, h3] := by
  refine ⟨rfl, createMerkleRoot_nil sha, createMerkleRoot_singleton sha h1, ?_, rfl⟩
  have e1 : pairLevel sha [h1, h2, h3] = [sha (h1 ++ h2), sha (h3 ++ h3)] := by
    simp [pairLevel, hh2]
  have e2 : pairLevel sha [sha (h1 ++ h2), sha (h3 ++ h3)]
      = [sha (sha (h1 ++ h2) ++ sha (h3 ++ h3))] := by
    simp [pairLevel, hsh]
  calc createMerkleRoot sha [h1, h2, h3]
      = createMerkleRoot sha [sha (h1 ++ h2), sha (h3 ++ h3)] := by
        rw [createMerkleRoot_cons_cons, e1]
    _ = createMerkleRoot sha [sha (sha (h1 ++ h2) ++ sha (h3 ++ h3))] := by
        rw [createMerkleRoot_cons_cons, e2]
    _ = sha (sha (h1 ++ h2) ++ sha (h3 ++ h3)) := createMerkleRoot_singleton sha _

/-- Witness for claim C6 at the concrete hashes a, b, c. -/
theorem C6_createMerkleRoot_edge_cases_witness :
    createMerkleRootJS shaTest none = shaTest "empty" ∧
    createMerkleRoot shaTest [] = shaTest "empty" ∧
    createMerkleRoot shaTest ["a"] = "a" ∧
    createMerkleRoot shaTest ["a", "b", "c"]
      = shaTest (shaTest ("a" ++ "b") ++ shaTest ("c" ++ "c")) ∧
    createMerkleRoot shaTest ["a", "b", "c"] = createMerkleRoot shaTest ["a", "b", "c"] :=
  C6_createMerkleRoot_edge_cases shaTest "a" "b" "c" (by decide) (by decide)

/-- Claim C9 (settled): each recursive call of createMerkleRoot receives
the strictly shorter pairing level (a level of n ≥ 2 hashes shrinks to
⌈n / 2⌉ < n), and the length-0 and length-1 cases return without
recursing, so the recursion is well-founded; accordingly
createMerkleRoot is accepted by Lean as a total function by
well-founded recursion on the list length. -/
theorem C9_createMerkleRoot_total (sha : String → String)
    (h1 h2 : String) (rest : List String) :
    createMerkleRoot sha (h1 :: h2 :: rest)
      = createMerkleRoot sha (pairLevel sha (h1 :: h2 :: rest)) ∧
    (pairLevel sha (h1 :: h2 :: rest)).length = ((h1 :: h2 :: rest).length + 1) / 2 ∧
    (pairLevel sha (h1 :: h2 :: rest)).length < (h1 :: h2 :: rest).length ∧
    createMerkleRoot sha [] = sha "empty" ∧
    createMerkleRoot sha [h1] = h1 := by
  refine ⟨createMerkleRoot_cons_cons sha h1 h2 rest, pairLevel_length sha _, ?_,
    createMerkleRoot_nil sha, createMerkleRoot_singleton sha h1⟩
  apply pairLevel_length_lt
  simp only [List.length_cons]
  omega

/-- Modelled from the wording of claim C8 alone (for the refutation
below): the hash of the plain concatenation of the document type and the
document number, with no separator.  The source inserts a colon between
the two parts. -/
def hashDocNumberPlainConcat (sha : String → String)
    (documentNumber documentType : String) : String :=
  sha (documentType ++ documentNumber)

/-- Counterexample to claim C8 as stated: the preimage used by
hashDocumentNumber is documentType ++ ":" ++ documentNumber, not the
plain concatenation documentType ++ documentNumber, so the two values
differ already for the identity in place of the hash (and hence for any
injective hash such as SHA-256 on these inputs). -/
theorem C8_counterexample :
    hashDocumentNumber id "123456789012" "aadhaar"
      ≠ hashDocNumberPlainConcat id "123456789012" "aadhaar" := by
  decide

/-- Claim C8 as amended: hashDocumentNumber n t is the SHA-256 of
documentType ++ ":" ++ documentNumber (a colon-separated, type-scoped
preimage), it is deterministic, and for a fixed number under two
distinct document types the two preimages differ, so under injectivity
(collision-freeness) of the hash the two hash values differ. -/
theorem C8_hashDocumentNumber_type_scoped (sha : String → String)
    (hinj : Function.Injective sha) (n t1 t2 : String) (ht : t1 ≠ t2) :
    hashDocumentNumber sha n t1 = sha (t1 ++ ":" ++ n) ∧
    hashDocumentNumber sha n t1 = hashDocumentNumber sha n t1 ∧
    hashDocumentNumber sha n t1 ≠ hashDocumentNumber sha n t2 := by
  refine ⟨rfl, rfl, ?_⟩
  intro h
  apply ht
  have hpre : t1 ++ ":" ++ n = t2 ++ ":" ++ n := hinj h
  have hd : t1.data ++ (":" ++ n).data = t2.data ++ (":" ++ n).data := by
    have := congrArg String.data hpre
    simpa [String.data_append, List.append_assoc] using this
  have hdata : t1.data = t2.data := List.append_cancel_right hd
  cases t1
  cases t2
  exact congrArg String.mk hdata

/-- Witness for the amended claim C8 at concrete inputs, with the
identity function as an injective stand-in for SHA-256. -/
theorem C8_hashDocumentNumber_type_scoped_witness :
    hashDocumentNumber id "123456789012" "aadhaar" = id ("aadhaar" ++ ":" ++ "123456789012") ∧
    hashDocumentNumber id "123456789012" "aadhaar" = hashDocumentNumber id "123456789012" "aadhaar" ∧
    hashDocumentNumber id "123456789012" "aadhaar" ≠ hashDocumentNumber id "123456789012" "pan" :=
  C8_hashDocumentNumber_type_scoped id (fun _ _ h => h) "123456789012" "aadhaar" "pan" (by decide)

/-! ## kycController.js — data model

The Mongoose `KYCRecord` document, restricted to the fields the pipeline
logic reads or writes.  Content-store (`ipfsStorage`), raw image path,
OCR and per-step sub-status fields, and request metadata are not
modelled: no claim concerns them and no modelled function branches on
them.  Timestamps are epoch milliseconds. -/

inductive KYCStatus
  | submitted
  | ai_processing
  | ai_verified
  | credential_issued
  | completed
  | rejected
  deriving DecidableEq

structure KYCRecord where
  id : Nat
  userId : Nat
  documentType : String
  documentNumber : String
  documentNumberHash : String
  userIdHash : String
  fileHashes : List (String × String)
  merkleRoot : String
  status : KYCStatus
  aiStatus : String
  aiErrors : List String
  aiConfidence : Option ℚ
  faceMatchScore : Option ℚ
  credentialId : Option String
  credentialExchangeId : Option String
  credentialMock : Bool
  rejectionReason : Option String
  blockTransactionHash : Option String
  blockNumber : Option Nat
  blockVerificationHash : Option String
  blockRegisteredAt : Option Nat
  submittedAt : Nat
  completedAt : Option Nat
  deriving DecidableEq

/-- The non-terminal statuses listed in the submit guard query
`status: $in ['submitted', 'ai_processing', 'ai_verified',
'credential_issued']` (kycController.js line 58). -/
def nonTerminal : KYCStatus → Bool
  | .submitted | .ai_processing | .ai_verified | .credential_issued => true
  | .completed | .rejected => false

/-- `KYCRecord.findOne` of the submit guard: the first record of the
user in a non-terminal state. -/
def findInFlight (records : List KYCRecord) (uid : Nat) : Option KYCRecord :=
  records.find? (fun r => r.userId == uid && nonTerminal r.status)

/-- The auto-fail write applied to a stuck record by the submit guard
(kycController.js lines 71–77); `toFixed(0)` on the elapsed minutes is
rendered as truncating division, which is not load-bearing for any
claim. -/
def autoFailStuckUpdate (r : KYCRecord) (now : Nat) : KYCRecord :=
  { r with
    status := .rejected
    aiStatus := "failed"
    aiErrors := ["Processing timeout - verification took too long"]
    rejectionReason := some ("AI verification timeout after "
      ++ toString ((now - r.submittedAt) / 60000) ++ " minutes. Please resubmit.")
    completedAt := some now }

inductive SubmitDecision
  | rejectInFlight (kycRecordId : Nat) (currentStatus : KYCStatus)
  | acceptAfterAutoFail (autoFailed : KYCRecord)
  | acceptFresh
  deriving DecidableEq

/-- Whether the decision lets the new submission proceed. -/
def SubmitDecision.accepts : SubmitDecision → Bool
  | .rejectInFlight _ _ => false
  | .acceptAfterAutoFail _ => true
  | .acceptFresh => true

/-- The idempotency guard of `submitKYC` (kycController.js lines 55–95):
with an existing non-terminal record, the stuck-record branch fires only
when that record's status is `ai_processing` AND it is older than 10
minutes (`elapsedMinutes > 10` over real-valued division is equivalent
to `now - submittedAt > 600000` milliseconds); otherwise the new
submission is rejected with the existing record's id and status. -/
def submitGuard (existingKYC : Option KYCRecord) (now : Nat) : SubmitDecision :=
  match existingKYC with
  | none => .acceptFresh
  | some ex =>
    if ex.status = .ai_processing ∧ 600000 < now - ex.submittedAt then
      .acceptAfterAutoFail (autoFailStuckUpdate ex now)
    else
      .rejectInFlight ex.id ex.status

/-- A stale record in status `submitted`, 20 minutes old at the probe
time used below. -/
def staleSubmittedRecord : KYCRecord :=
  { id := 1, userId := 7, documentType := "aadhaar",
    documentNumber := "123456789012", documentNumberHash := "dh",
    userIdHash := "uh", fileHashes := [("front", "fh"), ("selfie", "sh")],
    merkleRoot := "mr", status := .submitted, aiStatus := "pending",
    aiErrors := [], aiConfidence := none, faceMatchScore := none,
    credentialId := none, credentialExchangeId := none,
    credentialMock := false, rejectionReason := none,
    blockTransactionHash := none, blockNumber := none,
    blockVerificationHash := none, blockRegisteredAt := none,
    submittedAt := 0, completedAt := none }

/-- Counterexample to claim C1 as stated: a 20-minute-old record in the
non-terminal status `submitted` is NOT self-healed — the guard rejects
the new submission instead of force-rejecting the stale record, because
the stuck-record branch requires status `ai_processing`.  So the
stale-record self-healing does not apply to every non-terminal status. -/
theorem C1_counterexample :
    nonTerminal staleSubmittedRecord.status = true ∧
    600000 < 1200000 - staleSubmittedRecord.submittedAt ∧
    submitGuard (some staleSubmittedRecord) 1200000
      = .rejectInFlight 1 .submitted ∧
    (submitGuard (some staleSubmittedRecord) 1200000).accepts = false := by
  decide

/-- Claim C1 as amended: with an existing non-terminal record, the
submission is rejected with that record's id and status, UNLESS the
record's status is exactly `ai_processing` and its age exceeds the
10-minute staleness threshold, in which case the stale record is
force-transitioned to `rejected` with a processing-timeout reason and
the new submission is accepted; with no existing non-terminal record the
submission is accepted.  The self-healing branch applies only to the
`ai_processing` status, not to every non-terminal status. -/
theorem C1_submit_guard (ex : KYCRecord) (now : Nat) :
    (ex.status = .ai_processing → 600000 < now - ex.submittedAt →
      submitGuard (some ex) now = .acceptAfterAutoFail (autoFailStuckUpdate ex now) ∧
      (autoFailStuckUpdate ex now).status = .rejected ∧
      (autoFailStuckUpdate ex now).aiErrors
        = ["Processing timeout - verification took too long"] ∧
      (submitGuard (some ex) now).accepts = true) ∧
    (nonTerminal ex.status = true →
      (ex.status = .ai_processing → now - ex.submittedAt ≤ 600000) →
      submitGuard (some ex) now = .rejectInFlight ex.id ex.status ∧
      (submitGuard (some ex) now).accepts = false) ∧
    submitGuard none now = .acceptFresh := by
  refine ⟨?_, ?_, rfl⟩
  · intro h1 h2
    simp [submitGuard, h1, h2, autoFailStuckUpdate, SubmitDecision.accepts]
  · intro _ hfresh
    have hcond : ¬(ex.status = .ai_processing ∧ 600000 < now - ex.submittedAt) := by
      rintro ⟨hp, hgt⟩
      exact absurd hgt (by simpa using hfresh hp)
    simp [submitGuard, hcond, SubmitDecision.accepts]

/-- A stuck record in status `ai_processing`, 20 minutes old at the
probe time used below. -/
def staleProcessingRecord : KYCRecord :=
  { staleSubmittedRecord with id := 2, status := .ai_processing, aiStatus := "processing" }

/-- Witness for the amended claim C1: the self-healing branch at a stale
`ai_processing` record, the rejection branch at a stale `submitted`
record, and the fresh-acceptance branch. -/
theorem C1_submit_guard_witness :
    submitGuard (some staleProcessingRecord) 1200000
      = .acceptAfterAutoFail (autoFailStuckUpdate staleProcessingRecord 1200000) ∧
    submitGuard (some staleSubmittedRecord) 1200000
      = .rejectInFlight staleSubmittedRecord.id staleSubmittedRecord.status ∧
    submitGuard none 1200000 = .acceptFresh :=
  ⟨((C1_submit_guard staleProcessingRecord 1200000).1 rfl (by decide)).1,
   ((C1_submit_guard staleSubmittedRecord 1200000).2.1 (by decide)
      (fun h => absurd h (by decide))).1,
   (C1_submit_guard staleSubmittedRecord 1200000).2.2⟩

/-! ## kycController.js — pipeline stage writes

Each `KYCRecord.findByIdAndUpdate` of the background pipeline, rendered
as a pure record-update function. -/

/-- Result shape of the AI provider call (`verifyDocuments` /
`performDummyAIVerification`). -/
structure AIResult where
  verified : Bool
  confidenceScore : Option ℚ
  faceMatchScore : Option ℚ
  errors : List String
  deriving DecidableEq

/-- The two `status: 'ai_processing'` writes before and around the AI
call (kycController.js lines 266–269 and 329–333). -/
def setProcessingUpdate (r : KYCRecord) : KYCRecord :=
  { r with status := .ai_processing, aiStatus := "processing" }

/-- The write persisting the AI verdict (kycController.js lines
354–399): status and sub-status follow `aiResult.verified`, scores and
errors are persisted, and the rejection reason is set exactly when the
verdict is negative. -/
def aiResultUpdate (r : KYCRecord) (res : AIResult) : KYCRecord :=
  { r with
    status := if res.verified then .ai_verified else .rejected
    aiStatus := if res.verified then "verified" else "failed"
    aiConfidence := res.confidenceScore
    faceMatchScore := res.faceMatchScore
    aiErrors := res.errors
    rejectionReason := if res.verified then none else some "AI verification failed" }

/-- The catch-block write of `processAIVerification` (kycController.js
lines 430–435) after the AI stage throws.  Note: this path updates only
the KYC record; the code performs no `User.findByIdAndUpdate` here. -/
def aiErrorUpdate (r : KYCRecord) (message : String) : KYCRecord :=
  { r with
    status := .rejected
    aiStatus := "failed"
    aiErrors := [message]
    rejectionReason := some ("AI verification error: " ++ message) }

/-- The mock-credential write of `issueAriesCredential`
(kycController.js lines 463–470 and 519–526). -/
def mockCredentialUpdate (r : KYCRecord) (credentialId credentialExchangeId : String) : KYCRecord :=
  { r with
    status := .credential_issued
    credentialId := some credentialId
    credentialExchangeId := some credentialExchangeId
    credentialMock := true }

/-- The real-credential write of `issueAriesCredential`
(kycController.js lines 493–499). -/
def realCredentialUpdate (r : KYCRecord) (credentialId credentialExchangeId : String) : KYCRecord :=
  { r with
    status := .credential_issued
    credentialId := some credentialId
    credentialExchangeId := some credentialExchangeId }

/-- The production-mode failure write of `issueAriesCredential`
(kycController.js lines 533–536): keep `ai_verified`, note the failure. -/
def credProdFailureUpdate (r : KYCRecord) (message : String) : KYCRecord :=
  { r with
    status := .ai_verified
    rejectionReason := some ("Credential issuance failed: " ++ message) }

/-- Result of the external ledger registration call. -/
structure LedgerResult where
  transactionHash : String
  blockNumber : Nat
  verificationHash : String
  deriving DecidableEq

/-- The success write of `registerOnBlockchain` (kycController.js lines
595–602). -/
def blockchainSuccessUpdate (r : KYCRecord) (res : LedgerResult) (now : Nat) : KYCRecord :=
  { r with
    status := .completed
    blockTransactionHash := some res.transactionHash
    blockNumber := some res.blockNumber
    blockVerificationHash := some res.verificationHash
    blockRegisteredAt := some now
    completedAt := some now }

/-- The catch-block write of `registerOnBlockchain` (kycController.js
lines 619–622): status stays `credential_issued`, only the failure
reason is recorded; no ledger sub-state field and no `completedAt`
appears in the update. -/
def blockchainFailureUpdate (r : KYCRecord) (message : String) : KYCRecord :=
  { r with
    status := .credential_issued
    rejectionReason := some ("Blockchain registration failed: " ++ message) }

/-- The write of the 5-minute `setTimeout` handler in
`processAIVerification` (kycController.js lines 229–235).  The
`findByIdAndUpdate` is unconditional: it does not check the record's
current status before overwriting it. -/
def timeoutUpdate (r : KYCRecord) (now : Nat) : KYCRecord :=
  { r with
    status := .rejected
    aiStatus := "failed"
    aiErrors := ["Processing timeout - AI verification exceeded maximum time limit"]
    rejectionReason := some ("AI verification timeout. The verification process took too long."
      ++ " Please try again with clearer images.")
    completedAt := some now }

/-! ## kycController.js — the pipeline as a function

`processAIVerification` and its downstream stages, as a pure function of
the outcomes of the external calls.  The second component of each result
is the owning user's denormalized `kycStatus`; the third tracks which
downstream stages ran. -/

/-- Environment flags read by `issueAriesCredential`:
`SKIP_ARIES_CREDENTIAL === 'true' || NODE_ENV === 'development'` for the
skip branch, `NODE_ENV === 'development'` for the error fallback, and
the outcome of the Aries connection call when attempted. -/
structure AriesEnv where
  skipAries : Bool
  isDevelopment : Bool
  ariesCall : Except String Unit

/-- Which downstream stages ran after the AI stage. -/
structure StageTrace where
  credentialRan : Bool
  ledgerRan : Bool
  deriving DecidableEq

/-- `registerOnBlockchain` (kycController.js lines 544–624) as a
function of the ledger call's outcome: on success the record completes
and the user's status becomes "verified"; on failure only the record's
failure note is written and the user's status is untouched. -/
def registerOnBlockchainModel (r : KYCRecord) (userStatus : String)
    (ledgerCall : Except String LedgerResult) (now : Nat) : KYCRecord × String :=
  match ledgerCall with
  | .ok res => (blockchainSuccessUpdate r res now, "verified")
  | .error msg => (blockchainFailureUpdate r msg, userStatus)

/-- `issueAriesCredential` (kycController.js lines 442–539) as a
function: the skip branch and the development error-fallback branch
both issue a mock credential and continue to the ledger; the real call
on success issues a credential and continues to the ledger; a
production-mode error stops at `ai_verified`.  The Bool reports whether
the ledger stage ran. -/
def issueAriesCredentialModel (r : KYCRecord) (userStatus : String) (env : AriesEnv)
    (credentialId credentialExchangeId : String)
    (ledgerCall : Except String LedgerResult) (now : Nat) : KYCRecord × String × Bool :=
  if env.skipAries then
    let r1 := mockCredentialUpdate r credentialId credentialExchangeId
    let out := registerOnBlockchainModel r1 userStatus ledgerCall now
    (out.1, out.2, true)
  else
    match env.ariesCall with
    | .ok _ =>
      let r1 := realCredentialUpdate r credentialId credentialExchangeId
      let out := registerOnBlockchainModel r1 userStatus ledgerCall now
      (out.1, out.2, true)
    | .error msg =>
      if env.isDevelopment then
        let r1 := mockCredentialUpdate r credentialId credentialExchangeId
        let out := registerOnBlockchainModel r1 userStatus ledgerCall now
        (out.1, out.2, true)
      else
        (credProdFailureUpdate r msg, userStatus, false)

/-- `processAIVerification` (kycController.js lines 218–437) as a
function of the AI call's outcome (the IPFS stage does not influence the
fields modelled here): a thrown error hits the catch block; a negative
verdict persists the rejection and updates the user; a positive verdict
persists the verdict and runs `issueAriesCredential`, which is the only
caller of `registerOnBlockchain`. -/
def processAIVerificationModel (r : KYCRecord) (userStatus : String)
    (aiCall : Except String AIResult) (env : AriesEnv)
    (credentialId credentialExchangeId : String)
    (ledgerCall : Except String LedgerResult) (now : Nat) :
    KYCRecord × String × StageTrace :=
  let r0 := setProcessingUpdate r
  match aiCall with
  | .error msg => (aiErrorUpdate r0 msg, userStatus, ⟨false, false⟩)
  | .ok res =>
    let r1 := aiResultUpdate r0 res
    if res.verified then
      let out := issueAriesCredentialModel r1 userStatus env
        credentialId credentialExchangeId ledgerCall now
      (out.1, out.2.1, ⟨true, out.2.2⟩)
    else
      (r1, "rejected", ⟨false, false⟩)

/-- Counterexample to claim C3 as stated: when the AI provider throws,
the catch block persists the rejection on the record but performs no
user update, so the owning user's denormalized kycStatus is NOT updated
to "rejected" — it stays at its previous value "in_progress". -/
theorem C3_counterexample :
    (processAIVerificationModel staleSubmittedRecord "in_progress"
        (.error "AI service unreachable")
        ⟨true, true, .ok ()⟩ "cred-1" "cred-ex-1" (.error "unused") 0).1.status
      = .rejected ∧
    (processAIVerificationModel staleSubmittedRecord "in_progress"
        (.error "AI service unreachable")
        ⟨true, true, .ok ()⟩ "cred-1" "cred-ex-1" (.error "unused") 0).2.1
      = "in_progress" ∧
    "in_progress" ≠ "rejected" := by
  decide

/-- Claim C3 as amended: a negative AI verdict persists status
`rejected` with the rejection reason and the provider's error list,
updates the user's denormalized kycStatus to "rejected", and runs
neither the credential-issuance stage nor the ledger-registration stage;
a thrown provider error persists status `rejected` with a reason and the
error message as the error list and also runs no further stage, but does
NOT update the user's denormalized kycStatus (it remains unchanged). -/
theorem C3_ai_failure_semantics (r : KYCRecord) (userStatus : String)
    (env : AriesEnv) (credentialId credentialExchangeId : String)
    (ledgerCall : Except String LedgerResult) (now : Nat)
    (res : AIResult) (msg : String) :
    (res.verified = false →
      (processAIVerificationModel r userStatus (.ok res) env
          credentialId credentialExchangeId ledgerCall now).1.status = .rejected ∧
      (processAIVerificationModel r userStatus (.ok res) env
          credentialId credentialExchangeId ledgerCall now).1.rejectionReason
        = some "AI verification failed" ∧
      (processAIVerificationModel r userStatus (.ok res) env
          credentialId credentialExchangeId ledgerCall now).1.aiErrors = res.errors ∧
      (processAIVerificationModel r userStatus (.ok res) env
          credentialId credentialExchangeId ledgerCall now).2.1 = "rejected" ∧
      (processAIVerificationModel r userStatus (.ok res) env
          credentialId credentialExchangeId ledgerCall now).2.2 = ⟨false, false⟩) ∧
    ((processAIVerificationModel r userStatus (.error msg) env
        credentialId credentialExchangeId ledgerCall now).1.status = .rejected ∧
     (processAIVerificationModel r userStatus (.error msg) env
        credentialId credentialExchangeId ledgerCall now).1.rejectionReason
       = some ("AI verification error: " ++ msg) ∧
     (processAIVerificationModel r userStatus (.error msg) env
        credentialId credentialExchangeId ledgerCall now).1.aiErrors = [msg] ∧
     (processAIVerificationModel r userStatus (.error msg) env
        credentialId credentialExchangeId ledgerCall now).2.1 = userStatus ∧
     (processAIVerificationModel r userStatus (.error msg) env
        credentialId credentialExchangeId ledgerCall now).2.2 = ⟨false, false⟩) := by
  constructor
  · intro hv
    simp [processAIVerificationModel, aiResultUpdate, setProcessingUpdate, hv]
  · simp [processAIVerificationModel, aiErrorUpdate, setProcessingUpdate]

/-- Witness for the amended claim C3 at a concrete negative verdict. -/
theorem C3_ai_failure_semantics_witness :
    (processAIVerificationModel staleSubmittedRecord "in_progress"
        (.ok ⟨false, some (1 / 2), some (1 / 4), ["face mismatch"]⟩)
        ⟨true, true, .ok ()⟩ "cred-1" "cred-ex-1" (.error "unused") 0).1.status
      = .rejected ∧
    (processAIVerificationModel staleSubmittedRecord "in_progress"
        (.ok ⟨false, some (1 / 2), some (1 / 4), ["face mismatch"]⟩)
        ⟨true, true, .ok ()⟩ "cred-1" "cred-ex-1" (.error "unused") 0).1.rejectionReason
      = some "AI verification failed" ∧
    (processAIVerificationModel staleSubmittedRecord "in_progress"
        (.ok ⟨false, some (1 / 2), some (1 / 4), ["face mismatch"]⟩)
        ⟨true, true, .ok ()⟩ "cred-1" "cred-ex-1" (.error "unused") 0).1.aiErrors
      = ["face mismatch"] ∧
    (processAIVerificationModel staleSubmittedRecord "in_progress"
        (.ok ⟨false, some (1 / 2), some (1 / 4), ["face mismatch"]⟩)
        ⟨true, true, .ok ()⟩ "cred-1" "cred-ex-1" (.error "unused") 0).2.1
      = "rejected" ∧
    (processAIVerificationModel staleSubmittedRecord "in_progress"
        (.ok ⟨false, some (1 / 2), some (1 / 4), ["face mismatch"]⟩)
        ⟨true, true, .ok ()⟩ "cred-1" "cred-ex-1" (.error "unused") 0).2.2
      = ⟨false, false⟩ :=
  (C3_ai_failure_semantics staleSubmittedRecord "in_progress"
    ⟨true, true, .ok ()⟩ "cred-1" "cred-ex-1" (.error "unused") 0
    ⟨false, some (1 / 2), some (1 / 4), ["face mismatch"]⟩ "unused").1 rfl

/-- Claim C4: if the ledger-registration stage throws, the record is
left at `credential_issued` (never `rejected`) with the failure reason
recorded; the ledger sub-state fields and `completedAt`, unset on entry,
remain unset; the issued credential and the user's denormalized status
are untouched. -/
theorem C4_ledger_failure (r : KYCRecord) (userStatus message : String) (now : Nat)
    (h1 : r.blockTransactionHash = none) (h2 : r.blockNumber = none)
    (h3 : r.blockVerificationHash = none) (h4 : r.blockRegisteredAt = none)
    (h5 : r.completedAt = none) :
    (registerOnBlockchainModel r userStatus (.error message) now).1.status
      = .credential_issued ∧
    (registerOnBlockchainModel r userStatus (.error message) now).1.status
      ≠ .rejected ∧
    (registerOnBlockchainModel r userStatus (.error message) now).1.rejectionReason
      = some ("Blockchain registration failed: " ++ message) ∧
    (registerOnBlockchainModel r userStatus (.error message) now).1.blockTransactionHash
      = none ∧
    (registerOnBlockchainModel r userStatus (.error message) now).1.blockNumber = none ∧
    (registerOnBlockchainModel r userStatus (.error message) now).1.blockVerificationHash
      = none ∧
    (registerOnBlockchainModel r userStatus (.error message) now).1.blockRegisteredAt
      = none ∧
    (registerOnBlockchainModel r userStatus (.error message) now).1.completedAt = none ∧
    (registerOnBlockchainModel r userStatus (.error message) now).1.credentialId
      = r.credentialId ∧
    (registerOnBlockchainModel r userStatus (.error message) now).2 = userStatus := by
  simp [registerOnBlockchainModel, blockchainFailureUpdate, h1, h2, h3, h4, h5]

/-- A record that has just had its mock credential issued, as it stands
when `registerOnBlockchain` is entered. -/
def credentialIssuedRecord : KYCRecord :=
  { staleSubmittedRecord with
    id := 4, status := .credential_issued, aiStatus := "verified",
    aiConfidence := some (9 / 10), faceMatchScore := some (9 / 10),
    credentialId := some "cred-1", credentialExchangeId := some "cred-ex-1",
    credentialMock := true }

/-- Witness for claim C4 at a concrete credential-issued record and a
concrete ledger error. -/
theorem C4_ledger_failure_witness :
    (registerOnBlockchainModel credentialIssuedRecord "in_progress"
        (.error "network down") 42).1.status = .credential_issued ∧
    (registerOnBlockchainModel credentialIssuedRecord "in_progress"
        (.error "network down") 42).1.status ≠ .rejected ∧
    (registerOnBlockchainModel credentialIssuedRecord "in_progress"
        (.error "network down") 42).1.rejectionReason
      = some ("Blockchain registration failed: " ++ "network down") ∧
    (registerOnBlockchainModel credentialIssuedRecord "in_progress"
        (.error "network down") 42).1.blockTransactionHash = none ∧
    (registerOnBlockchainModel credentialIssuedRecord "in_progress"
        (.error "network down") 42).1.blockNumber = none ∧
    (registerOnBlockchainModel credentialIssuedRecord "in_progress"
        (.error "network down") 42).1.blockVerificationHash = none ∧
    (registerOnBlockchainModel credentialIssuedRecord "in_progress"
        (.error "network down") 42).1.blockRegisteredAt = none ∧
    (registerOnBlockchainModel credentialIssuedRecord "in_progress"
        (.error "network down") 42).1.completedAt = none ∧
    (registerOnBlockchainModel credentialIssuedRecord "in_progress"
        (.error "network down") 42).1.credentialId = credentialIssuedRecord.credentialId ∧
    (registerOnBlockchainModel credentialIssuedRecord "in_progress"
        (.error "network down") 42).2 = "in_progress" :=
  C4_ledger_failure credentialIssuedRecord "in_progress" "network down" 42
    rfl rfl rfl rfl rfl

/-! ## blockchainClient.js — the ledger payload

`registerOnBlockchain` builds `blockchainData` (kycController.js lines
552–576) and hands it to `registerKYCOnBlockchain`
(blockchainClient.js lines 107–182), which builds the verification-hash
preimage and the on-chain call arguments.  The serializer
(`JSON.stringify`) and the keccak hash are external primitives and kept
abstract. -/

structure IPFSCids where
  front : Option String
  back : Option String
  selfie : Option String
  deriving DecidableEq

/-- The `blockchainData` object (kycController.js lines 552–576).  Note
the `documentNumber` field: the code copies the plaintext document
number into the payload alongside its hash. -/
structure BlockchainPayload where
  documentType : String
  documentNumber : Option String
  documentNumberHash : Option String
  userIdHash : Option String
  fileHashes : Option (List (String × String))
  merkleRoot : Option String
  aiConfidence : Option ℚ
  faceMatchScore : Option ℚ
  ipfsCIDs : Option IPFSCids
  deriving DecidableEq

/-- `blockchainData` as built from the record; the IPFS triple is
attached only when `ipfsStorage.enabled`. -/
def buildBlockchainData (r : KYCRecord) (ipfs : Option IPFSCids) : BlockchainPayload :=
  { documentType := r.documentType
    documentNumber := some r.documentNumber
    documentNumberHash := some r.documentNumberHash
    userIdHash := some r.userIdHash
    fileHashes := some r.fileHashes
    merkleRoot := some r.merkleRoot
    aiConfidence := r.aiConfidence
    faceMatchScore := r.faceMatchScore
    ipfsCIDs := ipfs }

/-- Modelled from the spec (contract shape of the ledger register
operation, for the refutation below): the payload carries the one-way
hashes and has no plaintext documentNumber key. -/
def matchesLedgerContractShape (p : BlockchainPayload) : Bool :=
  p.documentNumber.isNone && p.documentNumberHash.isSome && p.userIdHash.isSome
    && p.fileHashes.isSome && p.merkleRoot.isSome

/-- JavaScript `a || b` for an optional string: the fallback is used
when the field is absent or the empty string. -/
def strFalsyD (o : Option String) (d : String) : String :=
  match o with
  | none => d
  | some s => if s = "" then d else s

/-- The `hashData` preimage object of `registerKYCOnBlockchain`
(blockchainClient.js lines 116–147).  The structure has no
documentNumber field because the code never reads
`verificationData.documentNumber`. -/
structure HashDataPre where
  userIdHash : String
  documentNumberHash : Option String
  documentType : String
  timestamp : Nat
  aiConfidence : ℚ
  faceMatchScore : ℚ
  ipfs : Option IPFSCids
  fileHashes : Option (List (String × String))
  merkleRoot : Option String
  deriving DecidableEq

def buildHashData (sha : String → String) (userId : String)
    (verificationData : BlockchainPayload) (now : Nat) : HashDataPre :=
  { userIdHash := strFalsyD verificationData.userIdHash (hashUserId sha userId)
    documentNumberHash := verificationData.documentNumberHash
    documentType := verificationData.documentType
    timestamp := now
    aiConfidence := verificationData.aiConfidence.getD 0
    faceMatchScore := verificationData.faceMatchScore.getD 0
    ipfs := verificationData.ipfsCIDs
    fileHashes := verificationData.fileHashes
    merkleRoot := verificationData.merkleRoot }

/-- The three arguments of the on-chain
`contract.registerVerification(verificationHash, userId, documentType)`
call (blockchainClient.js lines 156–160). -/
structure OnChainCall where
  verificationHash : String
  userId : String
  documentType : String
  deriving DecidableEq

def registerKYCOnBlockchainCall (sha keccak : String → String)
    (serialize : HashDataPre → String) (userId : String)
    (verificationData : BlockchainPayload) (now : Nat) : OnChainCall :=
  { verificationHash := keccak (serialize (buildHashData sha userId verificationData now))
    userId := userId
    documentType := if verificationData.documentType = "" then "national_id"
      else verificationData.documentType }

/-- A record as it stands at ledger-registration time, carrying the
plaintext document number alongside its hash. -/
def ledgerStageRecord : KYCRecord :=
  { credentialIssuedRecord with id := 5 }

/-- Counterexample to claim C5 as stated: the payload handed to the
external ledger's registration operation contains the plaintext
document number (kycController.js line 554 copies
`kycRecord.documentNumber` into `blockchainData`), so it does not match
the contract shape, which has no documentNumber key. -/
theorem C5_counterexample :
    (buildBlockchainData ledgerStageRecord none).documentNumber
      = some "123456789012" ∧
    matchesLedgerContractShape (buildBlockchainData ledgerStageRecord none) = false := by
  decide

/-- Claim C5 as amended: the payload handed to the ledger client carries
the one-way documentNumberHash but ALSO the plaintext documentNumber
(deviating from the contract shape); however the ledger client never
reads the plaintext — the verification-hash preimage and the on-chain
call arguments are invariant under any change of the payload's
documentNumber, for every choice of the hash and serialization
primitives — so only the one-way hash of the document number is included
in what is handed onward to the external ledger.  (The credential-issuer
client is never passed identity attributes in this code:
`issueKYCCredential` is imported but never called.) -/
theorem C5_plaintext_confinement (sha keccak : String → String)
    (serialize : HashDataPre → String) (userId : String)
    (r : KYCRecord) (ipfs : Option IPFSCids) (now : Nat) (otherNumber : String) :
    (buildBlockchainData r ipfs).documentNumberHash = some r.documentNumberHash ∧
    (buildBlockchainData r ipfs).documentNumber = some r.documentNumber ∧
    buildHashData sha userId (buildBlockchainData r ipfs) now
      = buildHashData sha userId
          (buildBlockchainData { r with documentNumber := otherNumber } ipfs) now ∧
    registerKYCOnBlockchainCall sha keccak serialize userId
        (buildBlockchainData r ipfs) now
      = registerKYCOnBlockchainCall sha keccak serialize userId
          (buildBlockchainData { r with documentNumber := otherNumber } ipfs) now :=
  ⟨rfl, rfl, rfl, rfl⟩

/-! ## kycController.js — the timer interleaving

The 5-minute `setTimeout` of `processAIVerification` runs concurrently
with the pipeline on the single-threaded event loop: its handler can run
at any suspension point (`await`) while the timer is armed, and
`clearTimeout` disarms it.  The labelled transition system below has one
program-counter value per suspension point of `processAIVerification`
and its downstream stages, applies the pure stage writes defined above,
and lets the timeout handler fire from any state whose timer is still
armed. -/

inductive PipePC
  | started
  | processing1
  | ipfsDone
  | processing2
  | aiReturned (verified : Bool)
  | resultsSaved (verified : Bool)
  | clearedVerified
  | credentialDone
  | credentialFailedProd
  | ledgerDone
  | clearedRejected
  | userRejected
  | errorCleared
  | errorDone
  deriving DecidableEq

structure PipeState where
  pc : PipePC
  record : KYCRecord
  userStatus : String
  timerActive : Bool
  deriving DecidableEq

inductive PipeLabel
  | internal
  | timeoutFires
  deriving DecidableEq

/-- One event-loop step of `processAIVerification` and its downstream
stages (internal label), or a firing of the armed 5-minute timer
(timeout label, kycController.js lines 225–249; the handler write is the
unconditional `timeoutUpdate` and the `User` write sets "rejected").
`clearTimeout` appears at exactly the points the code calls it: line 405
(verdict true), line 413 (verdict false), line 424 (catch block). -/
inductive PipeStep : PipeLabel → PipeState → PipeState → Prop
  | setProcessing1 (s : PipeState) (h : s.pc = .started) :
      PipeStep .internal s
        { s with pc := .processing1, record := setProcessingUpdate s.record }
  | ipfsUpload (s : PipeState) (h : s.pc = .processing1) :
      PipeStep .internal s { s with pc := .ipfsDone }
  | setProcessing2 (s : PipeState) (h : s.pc = .ipfsDone) :
      PipeStep .internal s
        { s with pc := .processing2, record := setProcessingUpdate s.record }
  | aiReturns (s : PipeState) (v : Bool) (h : s.pc = .processing2) :
      PipeStep .internal s { s with pc := .aiReturned v }
  | saveResults (s : PipeState) (res : AIResult) (h : s.pc = .aiReturned res.verified) :
      PipeStep .internal s
        { s with pc := .resultsSaved res.verified, record := aiResultUpdate s.record res }
  | clearTimerVerified (s : PipeState) (h : s.pc = .resultsSaved true) :
      PipeStep .internal s { s with pc := .clearedVerified, timerActive := false }
  | credentialIssuedMock (s : PipeState) (cid cexid : String) (h : s.pc = .clearedVerified) :
      PipeStep .internal s
        { s with pc := .credentialDone, record := mockCredentialUpdate s.record cid cexid }
  | credentialIssuedReal (s : PipeState) (cid cexid : String) (h : s.pc = .clearedVerified) :
      PipeStep .internal s
        { s with pc := .credentialDone, record := realCredentialUpdate s.record cid cexid }
  | credentialFailsProd (s : PipeState) (msg : String) (h : s.pc = .clearedVerified) :
      PipeStep .internal s
        { s with pc := .credentialFailedProd, record := credProdFailureUpdate s.record msg }
  | ledgerSucceeds (s : PipeState) (res : LedgerResult) (now : Nat) (h : s.pc = .credentialDone) :
      PipeStep .internal s
        { s with pc := .ledgerDone, record := blockchainSuccessUpdate s.record res now,
                 userStatus := "verified" }
  | ledgerFails (s : PipeState) (msg : String) (h : s.pc = .credentialDone) :
      PipeStep .internal s
        { s with pc := .ledgerDone, record := blockchainFailureUpdate s.record msg }
  | clearTimerRejected (s : PipeState) (h : s.pc = .resultsSaved false) :
      PipeStep .internal s { s with pc := .clearedRejected, timerActive := false }
  | userRejectedWrite (s : PipeState) (h : s.pc = .clearedRejected) :
      PipeStep .internal s { s with pc := .userRejected, userStatus := "rejected" }
  | errorClearsTimer (s : PipeState)
      (h : s.pc = .started ∨ s.pc = .processing1 ∨ s.pc = .ipfsDone ∨
        s.pc = .processing2 ∨ s.pc = .aiReturned true ∨ s.pc = .aiReturned false) :
      PipeStep .internal s { s with pc := .errorCleared, timerActive := false }
  | errorWrite (s : PipeState) (msg : String) (h : s.pc = .errorCleared) :
      PipeStep .internal s { s with pc := .errorDone, record := aiErrorUpdate s.record msg }
  | timeoutFires (s : PipeState) (now : Nat) (h : s.timerActive = true) :
      PipeStep .timeoutFires s
        { s with record := timeoutUpdate s.record now, userStatus := "rejected",
                 timerActive := false }

/-- The state in which `processAIVerification` is scheduled by
`submitKYC`: a freshly created record, user marked in progress, timer
armed. -/
def initPipeState (r : KYCRecord) : PipeState :=
  { pc := .started, record := r, userStatus := "in_progress", timerActive := true }

/-- Reachability along any interleaving of pipeline and timer steps. -/
def PipeReach (r : KYCRecord) (s : PipeState) : Prop :=
  Relation.ReflTransGen (fun a b => ∃ l, PipeStep l a b) (initPipeState r) s

/-- Program counters at or after a `clearTimeout` call. -/
def afterClear : PipePC → Bool
  | .clearedVerified | .credentialDone | .credentialFailedProd | .ledgerDone
  | .clearedRejected | .userRejected | .errorCleared | .errorDone => true
  | _ => false

/-- The timer-safety invariant: past any `clearTimeout` the timer is
disarmed, and a `completed` record is only ever seen past the
verdict-true `clearTimeout`. -/
def PipeInv (s : PipeState) : Prop :=
  (afterClear s.pc = true → s.timerActive = false) ∧
  (s.record.status = .completed → afterClear s.pc = true)

theorem pipeStep_inv {l : PipeLabel} {a b : PipeState}
    (hstep : PipeStep l a b) (hinv : PipeInv a) : PipeInv b := by
  obtain ⟨hclear, hcomp⟩ := hinv
  cases hstep with
  | setProcessing1 s h =>
    exact ⟨fun hc => by simp [afterClear] at hc,
      fun hc => by simp [setProcessingUpdate] at hc⟩
  | ipfsUpload s h =>
    refine ⟨fun hc => by simp [afterClear] at hc, fun hc => ?_⟩
    have := hcomp hc
    rw [h] at this
    simp [afterClear] at this
  | setProcessing2 s h =>
    exact ⟨fun hc => by simp [afterClear] at hc,
      fun hc => by simp [setProcessingUpdate] at hc⟩
  | aiReturns s v h =>
    refine ⟨fun hc => by simp [afterClear] at hc, fun hc => ?_⟩
    have := hcomp hc
    rw [h] at this
    simp [afterClear] at this
  | saveResults s res h =>
    refine ⟨fun hc => by simp [afterClear] at hc, fun hc => ?_⟩
    simp only [aiResultUpdate] at hc
    cases hv : res.verified <;> simp [hv] at hc
  | clearTimerVerified s h =>
    exact ⟨fun _ => rfl, fun _ => rfl⟩
  | credentialIssuedMock s cid cexid h =>
    refine ⟨fun _ => hclear (by rw [h]; rfl), fun _ => rfl⟩
  | credentialIssuedReal s cid cexid h =>
    refine ⟨fun _ => hclear (by rw [h]; rfl), fun _ => rfl⟩
  | credentialFailsProd s msg h =>
    refine ⟨fun _ => hclear (by rw [h]; rfl), fun _ => rfl⟩
  | ledgerSucceeds s res now h =>
    refine ⟨fun _ => hclear (by rw [h]; rfl), fun _ => rfl⟩
  | ledgerFails s msg h =>
    refine ⟨fun _ => hclear (by rw [h]; rfl), fun _ => rfl⟩
  | clearTimerRejected s h =>
    exact ⟨fun _ => rfl, fun _ => rfl⟩
  | userRejectedWrite s h =>
    refine ⟨fun _ => hclear (by rw [h]; rfl), fun _ => rfl⟩
  | errorClearsTimer s h =>
    exact ⟨fun _ => rfl, fun _ => rfl⟩
  | errorWrite s msg h =>
    refine ⟨fun _ => hclear (by rw [h]; rfl), fun hc => ?_⟩
    simp [aiErrorUpdate] at hc
  | timeoutFires s now h =>
    exact ⟨fun _ => rfl, fun hc => by simp [timeoutUpdate] at hc⟩

theorem pipeReach_inv {r : KYCRecord} (hr : r.status = .submitted)
    {s : PipeState} (hreach : PipeReach r s) : PipeInv s := by
  induction hreach with
  | refl =>
    exact ⟨fun hc => by simp [afterClear, initPipeState] at hc,
      fun hc => by rw [initPipeState] at hc; rw [hr] at hc; cases hc⟩
  | tail _ hstep ih =>
    obtain ⟨l, hst⟩ := hstep
    exact pipeStep_inv hst ih

/-- A freshly created record, as `submitKYC` persists it before
scheduling the background pipeline. -/
def freshSubmittedRecord : KYCRecord :=
  { staleSubmittedRecord with id := 6 }

/-- A record in the `completed` terminal state. -/
def completedRecord : KYCRecord :=
  { credentialIssuedRecord with
    id := 7, status := .completed,
    blockTransactionHash := some "0xabc", blockNumber := some 42,
    blockVerificationHash := some "0xhash", blockRegisteredAt := some 500,
    completedAt := some 500 }

/-- Counterexample to claim C2 as stated: the timeout handler's write is
NOT a no-op against a terminal state — applied to a record whose status
is `completed` it sets the status to `rejected`, because the
`findByIdAndUpdate` in the handler is unconditional. -/
theorem C2_counterexample :
    completedRecord.status = .completed ∧
    (timeoutUpdate completedRecord 999).status = .rejected ∧
    KYCStatus.rejected ≠ KYCStatus.completed := by
  decide

/-- Claim C2 as amended: the timeout handler's write is unconditional
(it would transition even a completed record to rejected, see the
counterexample), but the timer is disarmed by `clearTimeout` before the
pipeline can reach `completed`; consequently, along every interleaving
of the pipeline with the timer, the timeout handler never fires on a
state whose record is `completed`, and a record that has reached
`completed` is never transitioned to `rejected` by the timeout
handler. -/
theorem C2_timeout_never_fires_on_completed (r : KYCRecord)
    (hr : r.status = .submitted) (s s' : PipeState)
    (hreach : PipeReach r s) (hfire : PipeStep .timeoutFires s s') :
    s.record.status ≠ .completed := by
  intro hc
  obtain ⟨hclear, hcomp⟩ := pipeReach_inv hr hreach
  have htimer : s.timerActive = false := hclear (hcomp hc)
  cases hfire with
  | timeoutFires s now h => rw [h] at htimer; cases htimer

/-- Witness for the amended claim C2: at the initial state of a fresh
pipeline the armed timer can fire, and the record there is not
completed. -/
theorem C2_timeout_never_fires_on_completed_witness :
    (initPipeState freshSubmittedRecord).record.status ≠ .completed :=
  C2_timeout_never_fires_on_completed freshSubmittedRecord rfl
    (initPipeState freshSubmittedRecord) _ Relation.ReflTransGen.refl
    (PipeStep.timeoutFires (initPipeState freshSubmittedRecord) 999 rfl)

/-! ## validateKYC.js — submission validation

`validateKYCSubmission` runs as route middleware before `submitKYC`
(kycRoutes.js lines 11–17); on failure it responds with a structured
error list and never calls `next()`, so the controller — and hence any
record creation — is never reached. -/

structure UploadedFile where
  originalname : String
  mimetype : String
  size : Nat
  deriving DecidableEq

/-- The multer file map: the three accepted field keys, each optionally
carrying an uploaded file. -/
structure KYCFiles where
  front : Option UploadedFile
  back : Option UploadedFile
  selfie : Option UploadedFile
  deriving DecidableEq

structure KYCSubmitRequest where
  documentType : Option String
  documentNumber : Option String
  files : KYCFiles
  deriving DecidableEq

/-- The `DOCUMENT_RULES` number patterns (validateKYC.js lines 7–38),
rendered as decidable character-class checks equivalent to the anchored
regexes. -/
def aadhaarPattern (s : String) : Bool :=
  s.data.length == 12 && s.data.all Char.isDigit

def panPattern (s : String) : Bool :=
  s.data.length == 10 && (s.data.take 5).all Char.isUpper
    && ((s.data.drop 5).take 4).all Char.isDigit && (s.data.drop 9).all Char.isUpper

def passportPattern (s : String) : Bool :=
  s.data.length == 8 && (s.data.take 1).all Char.isUpper && (s.data.drop 1).all Char.isDigit

def drivingLicensePattern (s : String) : Bool :=
  s.data.length == 15 && (s.data.take 2).all Char.isUpper && (s.data.drop 2).all Char.isDigit

def nationalIdPattern (s : String) : Bool :=
  decide (6 ≤ s.data.length) && decide (s.data.length ≤ 20)
    && s.data.all (fun c => c.isUpper || c.isDigit)

structure DocumentRule where
  numberPattern : String → Bool
  requiredFields : List String
  maxFileSize : Nat
  allowedFormats : List String

def standardFormats : List String := ["image/jpeg", "image/jpg", "image/png"]

def documentRules : List (String × DocumentRule) :=
  [("aadhaar",
    { numberPattern := aadhaarPattern, requiredFields := ["front", "selfie"],
      maxFileSize := 5 * 1024 * 1024, allowedFormats := standardFormats }),
   ("pan",
    { numberPattern := panPattern, requiredFields := ["front", "selfie"],
      maxFileSize := 5 * 1024 * 1024, allowedFormats := standardFormats }),
   ("passport",
    { numberPattern := passportPattern, requiredFields := ["front", "back", "selfie"],
      maxFileSize := 5 * 1024 * 1024, allowedFormats := standardFormats }),
   ("driving_license",
    { numberPattern := drivingLicensePattern, requiredFields := ["front", "back", "selfie"],
      maxFileSize := 5 * 1024 * 1024, allowedFormats := standardFormats }),
   ("national_id",
    { numberPattern := nationalIdPattern, requiredFields := ["front", "selfie"],
      maxFileSize := 5 * 1024 * 1024, allowedFormats := standardFormats })]

def validTypes : List String := documentRules.map Prod.fst

def lookupRule (documentType : String) : Option DocumentRule :=
  (documentRules.find? (fun p => p.1 == documentType)).map Prod.snd

def getFileField (files : KYCFiles) (field : String) : Option UploadedFile :=
  if field = "front" then files.front
  else if field = "back" then files.back
  else if field = "selfie" then files.selfie
  else none

/-- `Object.entries(files)` over the three multer field keys. -/
def filesEntries (files : KYCFiles) : List (String × UploadedFile) :=
  (match files.front with
    | some f => [("documentImages[front]", f)]
    | none => []) ++
  (match files.back with
    | some f => [("documentImages[back]", f)]
    | none => []) ++
  (match files.selfie with
    | some f => [("documentImages[selfie]", f)]
    | none => [])

/-- Validation 5 (validateKYC.js lines 107–113): one message per missing
required field. -/
def requiredFieldErrors (rule : DocumentRule) (files : KYCFiles)
    (documentType : String) : List String :=
  rule.requiredFields.filterMap (fun field =>
    match getFileField files field with
    | none => some (field ++ " image is required for " ++ documentType)
    | some _ => none)

/-- `path.extname(...)` for the sanitized original file name: the last
dot-suffix, empty for names without a dot or with only a leading dot. -/
def extname (name : String) : String :=
  match name.splitOn "." with
  | [] => ""
  | [_] => ""
  | "" :: [_] => ""
  | parts => "." ++ parts.getLastD ""

def validExtensions : List String := [".jpg", ".jpeg", ".png"]

/-- Validation 6 (validateKYC.js lines 123–143) for one file entry. -/
def fileEntryErrors (rule : DocumentRule) (key : String) (f : UploadedFile) : List String :=
  (if rule.maxFileSize < f.size then
    [key ++ " exceeds maximum size of " ++ toString (rule.maxFileSize / 1024 / 1024) ++ "MB"]
  else []) ++
  (if rule.allowedFormats.contains f.mimetype then []
  else [key ++ " must be in one of these formats: "
    ++ String.intercalate ", " rule.allowedFormats]) ++
  (if validExtensions.contains (extname f.originalname).toLower then []
  else [key ++ " has invalid extension. Must be .jpg, .jpeg, or .png"])

def fileCheckErrors (rule : DocumentRule) (files : KYCFiles) : List String :=
  (filesEntries files).flatMap (fun e => fileEntryErrors rule e.1 e.2)

structure ValidationFailure where
  message : String
  errors : List String
  deriving DecidableEq

/-- JavaScript truthiness of an optional request-body string: absent and
empty both count as missing. -/
def strOrEmpty (o : Option String) : String := o.getD ""

def strPresent (o : Option String) : Bool := !(strOrEmpty o == "")

/-- `validateKYCSubmission` (validateKYC.js lines 43–165): the six
checks in source order; the first five return on their first failure,
the required-field and per-file checks accumulate message lists. -/
def validateKYCSubmission (req : KYCSubmitRequest) : Except ValidationFailure Unit :=
  if !strPresent req.documentType then
    .error { message := "Validation failed", errors := ["documentType is required"] }
  else if !strPresent req.documentNumber then
    .error { message := "Validation failed", errors := ["documentNumber is required"] }
  else
    let dt := strOrEmpty req.documentType
    let dn := strOrEmpty req.documentNumber
    match lookupRule dt with
    | none =>
      .error
        { message := "Validation failed",
          errors := ["Invalid documentType \"" ++ dt ++ "\". Must be one of: "
            ++ String.intercalate ", " validTypes] }
    | some rule =>
      if !rule.numberPattern dn then
        .error
          { message := "Validation failed",
            errors := ["Invalid " ++ dt ++ " number format"] }
      else if filesEntries req.files = [] then
        .error { message := "Validation failed", errors := ["No files uploaded"] }
      else if requiredFieldErrors rule req.files dt ≠ [] then
        .error
          { message := "Validation failed",
            errors := requiredFieldErrors rule req.files dt }
      else if fileCheckErrors rule req.files ≠ [] then
        .error
          { message := "File validation failed",
            errors := fileCheckErrors rule req.files }
      else
        .ok ()

/-! ## The submit route: validation composed with the controller -/

/-- The user collection restricted to the denormalized kycStatus. -/
structure DBState where
  records : List KYCRecord
  users : List (Nat × String)
  deriving DecidableEq

def setUserStatus (users : List (Nat × String)) (uid : Nat) (status : String) :
    List (Nat × String) :=
  users.map (fun p => if p.1 == uid then (p.1, status) else p)

def replaceRecord (records : List KYCRecord) (r : KYCRecord) : List KYCRecord :=
  records.map (fun x => if x.id == r.id then r else x)

inductive RouteResponse
  | badRequest (message : String) (errors : List String)
  | conflict (kycRecordId : Nat) (currentStatus : KYCStatus)
  | created (kycRecordId : Nat)
  deriving DecidableEq

/-- `submitKYC` after validation has passed: the idempotency guard, then
record creation and the user-status write.  The fully hashed new record
is a parameter because its hashes are computed from the uploaded file
bytes, which are outside the model. -/
def submitKYCModel (db : DBState) (uid : Nat) (newRecord : KYCRecord) (now : Nat) :
    RouteResponse × DBState :=
  match submitGuard (findInFlight db.records uid) now with
  | .rejectInFlight i s => (.conflict i s, db)
  | .acceptAfterAutoFail failed =>
    (.created newRecord.id,
     { records := replaceRecord db.records failed ++ [newRecord],
       users := setUserStatus db.users uid "in_progress" })
  | .acceptFresh =>
    (.created newRecord.id,
     { records := db.records ++ [newRecord],
       users := setUserStatus db.users uid "in_progress" })

/-- The `/submit` route (kycRoutes.js lines 11–17): the validator runs
before the controller and a validation failure short-circuits with the
error response, leaving the database untouched. -/
def handleSubmitRoute (req : KYCSubmitRequest) (db : DBState) (uid : Nat)
    (newRecord : KYCRecord) (now : Nat) : RouteResponse × DBState :=
  match validateKYCSubmission req with
  | .error e => (.badRequest e.message e.errors, db)
  | .ok _ => submitKYCModel db uid newRecord now

/-- Claim C7: a submission with an unrecognized document type, a
document number failing the type's pattern, or a missing required image
file is rejected with a structured list of field-level error message
strings, and the database — records and users alike — is left exactly as
it was: no VerificationRecord is created and no other state is
mutated. -/
theorem C7_validation_precedes_creation (req : KYCSubmitRequest) (db : DBState)
    (uid : Nat) (newRecord : KYCRecord) (now : Nat)
    (dt dn : String) (rule : DocumentRule) :
    (req.documentType = some dt → dt ≠ "" → strPresent req.documentNumber = true →
      lookupRule dt = none →
      handleSubmitRoute req db uid newRecord now
        = (.badRequest "Validation failed"
            ["Invalid documentType \"" ++ dt ++ "\". Must be one of: "
              ++ String.intercalate ", " validTypes], db)) ∧
    (req.documentType = some dt → dt ≠ "" → req.documentNumber = some dn → dn ≠ "" →
      lookupRule dt = some rule → rule.numberPattern dn = false →
      handleSubmitRoute req db uid newRecord now
        = (.badRequest "Validation failed" ["Invalid " ++ dt ++ " number format"], db)) ∧
    (req.documentType = some dt → dt ≠ "" → req.documentNumber = some dn → dn ≠ "" →
      lookupRule dt = some rule → rule.numberPattern dn = true →
      filesEntries req.files ≠ [] → requiredFieldErrors rule req.files dt ≠ [] →
      handleSubmitRoute req db uid newRecord now
        = (.badRequest "Validation failed" (requiredFieldErrors rule req.files dt), db)) := by
  refine ⟨?_, ?_, ?_⟩
  · intro hdt hne hdn hlook
    have hdn2 : ¬(req.documentNumber.getD "" = "") := by
      simpa [strPresent, strOrEmpty] using hdn
    simp [handleSubmitRoute, validateKYCSubmission, strPresent, strOrEmpty,
      hdt, hne, hdn2, hlook]
  · intro hdt hne hdn hdne hlook hpat
    simp [handleSubmitRoute, validateKYCSubmission, strPresent, strOrEmpty,
      hdt, hne, hdn, hdne, hlook, hpat]
  · intro hdt hne hdn hdne hlook hpat hfiles herrs
    simp [handleSubmitRoute, validateKYCSubmission, strPresent, strOrEmpty,
      hdt, hne, hdn, hdne, hlook, hpat, hfiles, herrs]

/-- A well-formed pair of image files. -/
def goodFile : UploadedFile :=
  { originalname := "scan.jpg", mimetype := "image/jpeg", size := 1024 }

def dbTest : DBState :=
  { records := [], users := [(7, "pending")] }

/-- Witness for claim C7 at three concrete invalid submissions:
an unrecognized type, a malformed aadhaar number, and a passport
submission missing its required back image. -/
theorem C7_validation_precedes_creation_witness :
    handleSubmitRoute
        ⟨some "voter_id", some "123456789012",
          ⟨some goodFile, none, some goodFile⟩⟩ dbTest 7 freshSubmittedRecord 0
      = (.badRequest "Validation failed"
          ["Invalid documentType \"" ++ "voter_id" ++ "\". Must be one of: "
            ++ String.intercalate ", " validTypes], dbTest) ∧
    handleSubmitRoute
        ⟨some "aadhaar", some "1234", ⟨some goodFile, none, some goodFile⟩⟩
        dbTest 7 freshSubmittedRecord 0
      = (.badRequest "Validation failed" ["Invalid " ++ "aadhaar" ++ " number format"],
         dbTest) ∧
    handleSubmitRoute
        ⟨some "passport", some "A1234567", ⟨some goodFile, none, some goodFile⟩⟩
        dbTest 7 freshSubmittedRecord 0
      = (.badRequest "Validation failed"
          (requiredFieldErrors
            { numberPattern := passportPattern,
              requiredFields := ["front", "back", "selfie"],
              maxFileSize := 5 * 1024 * 1024, allowedFormats := standardFormats }
            ⟨some goodFile, none, some goodFile⟩ "passport"), dbTest) :=
  ⟨(C7_validation_precedes_creation
      ⟨some "voter_id", some "123456789012", ⟨some goodFile, none, some goodFile⟩⟩
      dbTest 7 freshSubmittedRecord 0 "voter_id" "123456789012"
      ⟨aadhaarPattern, [], 0, []⟩).1 rfl (by decide) (by decide) rfl,
   (C7_validation_precedes_creation
      ⟨some "aadhaar", some "1234", ⟨some goodFile, none, some goodFile⟩⟩
      dbTest 7 freshSubmittedRecord 0 "aadhaar" "1234"
      { numberPattern := aadhaarPattern, requiredFields := ["front", "selfie"],
        maxFileSize := 5 * 1024 * 1024, allowedFormats := standardFormats }).2.1
      rfl (by decide) rfl (by decide) rfl (by decide),
   (C7_validation_precedes_creation
      ⟨some "passport", some "A1234567", ⟨some goodFile, none, some goodFile⟩⟩
      dbTest 7 freshSubmittedRecord 0 "passport" "A1234567"
      { numberPattern := passportPattern, requiredFields := ["front", "back", "selfie"],
        maxFileSize := 5 * 1024 * 1024, allowedFormats := standardFormats }).2.2
      rfl (by decide) rfl (by decide) rfl (by decide) (by decide) (by decide)⟩

/-! ## ipfsClient.js — batched upload

`uploadMultipleToIPFS` loops over the file paths, wrapping every
`uploadToIPFS` call in a per-file try/catch; the single-file upload is
kept abstract as a per-path outcome (it already encapsulates the
provider switch and its own fallback logic). -/

/-- The fields of a successful `uploadToIPFS` result that the batch
entry spreads. -/
structure UploadSuccess where
  cid : Option String
  provider : String
  fileHash : String
  deriving DecidableEq

/-- One element of the list returned by `uploadMultipleToIPFS`
(ipfsClient.js lines 218 and 221–225). -/
structure MultiUploadEntry where
  filePath : String
  success : Bool
  result : Option UploadSuccess
  error : Option String
  deriving DecidableEq

/-- One iteration of the loop: the try/catch around `uploadToIPFS`. -/
def mkUploadEntry (upload : String → Except String UploadSuccess)
    (filePath : String) : MultiUploadEntry :=
  match upload filePath with
  | .ok r => { filePath := filePath, success := true, result := some r, error := none }
  | .error msg =>
    { filePath := filePath, success := false, result := none, error := some msg }

/-- `uploadMultipleToIPFS` (ipfsClient.js lines 209–230): the loop in
input order; a failed upload contributes its error entry and the loop
continues with the remaining paths.  The function is total: every
exception is caught inside the loop body. -/
def uploadMultipleToIPFS (upload : String → Except String UploadSuccess) :
    List String → List MultiUploadEntry
  | [] => []
  | filePath :: rest => mkUploadEntry upload filePath :: uploadMultipleToIPFS upload rest

theorem uploadMultipleToIPFS_eq_map (upload : String → Except String UploadSuccess) :
    ∀ filePaths : List String,
      uploadMultipleToIPFS upload filePaths = filePaths.map (mkUploadEntry upload)
  | [] => rfl
  | _ :: rest => by
    simp [uploadMultipleToIPFS, uploadMultipleToIPFS_eq_map upload rest]

/-- Claim C10: uploadMultipleToIPFS returns exactly one entry per input
file path, in input order (entry i is the per-file outcome of path i,
and carries that path); a failing upload yields a success=false entry
with the error message while the remaining files are still processed
(each entry depends only on its own path's outcome); and the function is
total — the per-file catch means it never throws. -/
theorem C10_upload_isolation (upload : String → Except String UploadSuccess)
    (filePaths : List String) (filePath msg : String) (r : UploadSuccess) :
    uploadMultipleToIPFS upload filePaths = filePaths.map (mkUploadEntry upload) ∧
    (uploadMultipleToIPFS upload filePaths).length = filePaths.length ∧
    (mkUploadEntry upload filePath).filePath = filePath ∧
    (upload filePath = .error msg →
      mkUploadEntry upload filePath
        = { filePath := filePath, success := false, result := none, error := some msg }) ∧
    (upload filePath = .ok r →
      mkUploadEntry upload filePath
        = { filePath := filePath, success := true, result := some r, error := none }) := by
  refine ⟨uploadMultipleToIPFS_eq_map upload filePaths, ?_, ?_, ?_, ?_⟩
  · rw [uploadMultipleToIPFS_eq_map upload filePaths, List.length_map]
  · cases h : upload filePath <;> simp [mkUploadEntry, h]
  · intro h
    simp [mkUploadEntry, h]
  · intro h
    simp [mkUploadEntry, h]

/-- An upload oracle for the witness: the selfie upload fails, the rest
succeed. -/
def uploadTest (filePath : String) : Except String UploadSuccess :=
  if filePath = "/tmp/selfie.jpg" then .error "Pinata API credentials not configured"
  else .ok { cid := some "bafy1", provider := "pinata", fileHash := "fh" }

/-- Witness for claim C10 with a three-file batch whose middle upload
fails. -/
theorem C10_upload_isolation_witness :
    uploadMultipleToIPFS uploadTest ["/tmp/front.jpg", "/tmp/selfie.jpg", "/tmp/back.jpg"]
      = ["/tmp/front.jpg", "/tmp/selfie.jpg", "/tmp/back.jpg"].map (mkUploadEntry uploadTest) ∧
    (uploadMultipleToIPFS uploadTest
        ["/tmp/front.jpg", "/tmp/selfie.jpg", "/tmp/back.jpg"]).length = 3 ∧
    (mkUploadEntry uploadTest "/tmp/selfie.jpg").filePath = "/tmp/selfie.jpg" ∧
    mkUploadEntry uploadTest "/tmp/selfie.jpg"
      = { filePath := "/tmp/selfie.jpg", success := false, result := none,
          error := some "Pinata API credentials not configured" } :=
  have h := C10_upload_isolation uploadTest
    ["/tmp/front.jpg", "/tmp/selfie.jpg", "/tmp/back.jpg"]
    "/tmp/selfie.jpg" "Pinata API credentials not configured"
    { cid := some "bafy1", provider := "pinata", fileHash := "fh" }
  ⟨h.1, h.2.1, h.2.2.1, h.2.2.2.1 rfl⟩

end Bharosa
